import Mathlib

/-!
Verification of the sop-agent RAG pipeline.

Shallow embedding of the repository's Python sources:
  * `src/utils/document_processor.py` (DocumentProcessor)
  * `src/utils/vector_store.py`       (VectorStoreManager)
  * `src/utils/rag_agent.py`          (RAGAgent)
  * `streamlit_app.py`                (ask_question front-end flow)

External collaborators (the Chroma vector index's `similarity_search_with_score`
and langchain's `RecursiveCharacterTextSplitter`) are not part of the repository;
they are modelled from the specification's contracts and are marked as such in
their doc comments.

Python floats (similarity distances, the 0.5 score threshold) are modelled as
rationals; Python strings as Lean `String`; Python `None` as `Option`; raised
exceptions as `Except` errors.
-/

namespace SopAgent

/-! ## Python string primitives used by the sources -/

/-- Python `s.lower()`: character-wise lowercasing. -/
def pyLower (s : String) : String := ⟨s.data.map Char.toLower⟩

/-- The character-list form of Python `s.strip()`: drop whitespace from both ends. -/
def stripChars (cs : List Char) : List Char :=
  ((cs.dropWhile Char.isWhitespace).reverse.dropWhile Char.isWhitespace).reverse

/-- Python `s.strip()`. -/
def pyStrip (s : String) : String := ⟨stripChars s.data⟩

/-- Python substring test `pat in s`. -/
def pyIn (pat s : String) : Bool := s.data.tails.any (fun t => pat.data.isPrefixOf t)

/-- Python `s.endswith(post)`. -/
def pyEndsWith (s post : String) : Bool := post.data.isSuffixOf s.data

/-- Python `os.path.basename`: the part of the path after the last slash. -/
def basename (p : String) : String := ⟨(p.data.reverse.takeWhile (· ≠ '/')).reverse⟩

/-! ## Data model: chunk records (`langchain.schema.Document` as produced
by `DocumentProcessor.process_document`) -/

/-- The metadata dict attached to every produced chunk
(`document_processor.py`, lines 72-78). -/
structure DocMetadata where
  source : String
  file_path : String
  product_type : String
  chunk_index : Nat
  total_chunks : Nat
deriving DecidableEq, Repr

/-- A chunk record: `Document(page_content=chunk, metadata=metadata)`. -/
structure Document where
  page_content : String
  metadata : DocMetadata
deriving DecidableEq, Repr

/-! ## DocumentProcessor (`src/utils/document_processor.py`) -/

/-- `DocumentProcessor.detect_product_type` (lines 38-49): lowercase both
inputs, then a priority if-chain of substring tests.  Note the per-field
checks: `"inner range"` is tested against the text only, while
`"inner_range"` and `"innerrange"` are tested against the filename only. -/
def detect_product_type (text filename : String) : String :=
  let text_lower := pyLower text
  let filename_lower := pyLower filename
  if pyIn "everbridge" text_lower || pyIn "everbridge" filename_lower then "everbridge"
  else if pyIn "inner range" text_lower || pyIn "inner_range" filename_lower
      || pyIn "innerrange" filename_lower then "inner_range"
  else if pyIn "milestone" text_lower || pyIn "milestone" filename_lower then "milestone"
  else "general"

/-- The classifier as the specification's words describe it (for comparison
with `detect_product_type`): each category's keyword list is matched
case-insensitively against BOTH the text and the filename, first matching
category in priority order wins, no match yields `"general"`. -/
def spec_classify (text filename : String) : String :=
  let text_lower := pyLower text
  let filename_lower := pyLower filename
  let hits := fun (kws : List String) =>
    kws.any (fun kw => pyIn kw text_lower || pyIn kw filename_lower)
  if hits ["everbridge"] then "everbridge"
  else if hits ["inner range", "inner_range", "innerrange"] then "inner_range"
  else if hits ["milestone"] then "milestone"
  else "general"

/-- Modelled from the spec: the Chunker (langchain's
`RecursiveCharacterTextSplitter`, external to the repository; the repository
only constructs it with `chunk_size`/`chunk_overlap` and calls `split_text`).
Spec 4.1: chunks of at most `chunk_size` characters, adjacent chunks
overlapping by up to `overlap` characters, no text dropped, and a text
shorter than `chunk_size` yields a single chunk.  The model emits windows of
`chunkSize` characters advancing by `step = chunkSize - overlap`; the fuel
argument (instantiated with the text length) guarantees termination. -/
def chunkAux (chunkSize step : Nat) : Nat → List Char → List (List Char)
  | 0, cs => [cs]
  | fuel + 1, cs =>
    if cs.length ≤ chunkSize then [cs]
    else cs.take chunkSize :: chunkAux chunkSize step fuel (cs.drop step)

/-- Modelled from the spec: `split_text` of the Chunker (spec 4.1).  See
`chunkAux`. -/
def split_text (chunk_size chunk_overlap : Nat) (text : String) : List String :=
  (chunkAux chunk_size (chunk_size - chunk_overlap) text.data.length text.data).map
    (fun cs => ⟨cs⟩)

/-- Joining chunks back together while ignoring the duplicated overlap: keep
the first chunk whole and drop the first `overlap` characters of every later
chunk (spec 4.1's "concatenation of chunks (ignoring duplicated overlap)"). -/
def reconstructChars (overlap : Nat) : List (List Char) → List Char
  | [] => []
  | c :: rest => c ++ (rest.map (List.drop overlap)).flatten

/-- String-level form of `reconstructChars`. -/
def reconstruct (overlap : Nat) (chunks : List String) : String :=
  ⟨reconstructChars overlap (chunks.map String.data)⟩

/-- One attempt to read a PDF with `pdfplumber` (external collaborator):
the page texts yielded before any failure (`page.extract_text()` may return
`None`), whether the attempt completed without raising, and the exception
message if it raised. -/
structure PdfAttempt where
  pages : List (Option String)
  ok : Bool
  err_msg : String

/-- One attempt to read a PDF with PyMuPDF / `fitz` (external collaborator). -/
structure FitzAttempt where
  pages : List String
  ok : Bool
  err_msg : String

/-- The ambient file system and the two PDF extraction collaborators, as seen
by `DocumentProcessor`. -/
structure ExtractEnv where
  path_exists : String → Bool
  pdfplumber_open : String → PdfAttempt
  pymupdf_open : String → FitzAttempt

/-- `DocumentProcessor.extract_text_from_pdf` (lines 17-36): accumulate
truthy pdfplumber page texts with a trailing newline each; on a pdfplumber
exception, keep the partially accumulated text and fall back to PyMuPDF,
which appends every page text plus a newline; if PyMuPDF also raises,
re-raise `Could not extract text from PDF`.  The result is `text.strip()`. -/
def extract_text_from_pdf (env : ExtractEnv) (file_path : String) : Except String String :=
  let a := env.pdfplumber_open file_path
  let text1 := a.pages.foldl (fun acc pt =>
    match pt with
    | some t => if t ≠ "" then acc ++ t ++ "\n" else acc
    | none => acc) ""
  if a.ok then .ok (pyStrip text1)
  else
    let b := env.pymupdf_open file_path
    let text2 := b.pages.foldl (fun acc t => acc ++ t ++ "\n") text1
    if b.ok then .ok (pyStrip text2)
    else .error ("Could not extract text from PDF: " ++ b.err_msg)

/-- The failure modes of `process_document`, named after the spec's error
taxonomy (section 7).  `notFound` is the code's `FileNotFoundError`;
`unsupportedFormat` is the `ValueError` raised for non-PDF paths;
`extraction` covers both the extraction failure re-raised by
`extract_text_from_pdf` and the `ValueError` for empty extracted text. -/
inductive ProcError where
  | notFound (msg : String)
  | unsupportedFormat (msg : String)
  | extraction (msg : String)
deriving DecidableEq, Repr

/-- `DocumentProcessor.process_document` (lines 51-81).  `chunk_size` and
`chunk_overlap` are the constructor arguments (defaults 1000 / 200). -/
def process_document (chunk_size chunk_overlap : Nat) (env : ExtractEnv)
    (file_path : String) (product_type : Option String) :
    Except ProcError (List Document) :=
  if env.path_exists file_path = false then
    .error (.notFound ("File not found: " ++ file_path))
  else if pyEndsWith (pyLower file_path) ".pdf" = false then
    .error (.unsupportedFormat "Currently only PDF files are supported")
  else
    match extract_text_from_pdf env file_path with
    | .error e => .error (.extraction e)
    | .ok text =>
      if pyStrip text = "" then
        .error (.extraction "No text could be extracted from the PDF")
      else
        let filename := basename file_path
        let pt := match product_type with
          | some p => p
          | none => detect_product_type text filename
        let chunks := split_text chunk_size chunk_overlap text
        .ok (chunks.enum.map (fun ic =>
          { page_content := ic.2,
            metadata :=
              { source := filename,
                file_path := file_path,
                product_type := pt,
                chunk_index := ic.1,
                total_chunks := chunks.length } }))

/-- `DocumentProcessor.process_multiple_documents` (lines 83-100): loop over
the paths, look the path up in the optional `product_types` dict, skip a
document whose processing raises, extend the accumulator otherwise. -/
def process_multiple_documents (chunk_size chunk_overlap : Nat) (env : ExtractEnv)
    (file_paths : List String) (product_types : List (String × String)) :
    List Document :=
  file_paths.foldl (fun all_documents file_path =>
    match process_document chunk_size chunk_overlap env file_path
        (product_types.lookup file_path) with
    | .ok documents => all_documents ++ documents
    | .error _ => all_documents) []

/-! ## VectorStoreManager (`src/utils/vector_store.py`) -/

/-- The Python literal `0.5` (the default `score_threshold` of
`search_documents`), written with explicit numerator and denominator so that
the kernel can evaluate comparisons against it. -/
def half : ℚ := ⟨1, 2, by norm_num, by norm_num⟩

/-- Modelled from the spec: the state of the Chroma vector index (external to
the repository).  `entries` are the stored chunk records in insertion order;
`dist query d` is the similarity distance between the embedding of `query`
and the stored embedding of `d` (embedding provider and distance metric are
opaque collaborators).  `initialized` is false when `_initialize_vectorstore`
failed and left `self.vectorstore = None`. -/
structure VectorStore where
  initialized : Bool
  entries : List Document
  dist : String → Document → ℚ

instance decidableRelSndLe :
    DecidableRel (fun (a b : Document × ℚ) => a.2 ≤ b.2) :=
  fun a b => inferInstanceAs (Decidable (a.2 ≤ b.2))

instance isTotalSndLe : IsTotal (Document × ℚ) (fun a b => a.2 ≤ b.2) :=
  ⟨fun a b => le_total a.2 b.2⟩

instance isTransSndLe : IsTrans (Document × ℚ) (fun a b => a.2 ≤ b.2) :=
  ⟨fun _ _ _ h h2 => le_trans h h2⟩

/-- Modelled from the spec: Chroma's `similarity_search_with_score`
(spec 4.5 Vector Index `search`): up to `k` nearest stored records by
ascending distance, optionally restricted to records whose `product_type`
matches the filter, ties broken by insertion order (the insertion sort is
stable). -/
def similarity_search_with_score (vs : VectorStore) (query : String) (k : Nat)
    (filterDict : Option String) : List (Document × ℚ) :=
  let candidates := match filterDict with
    | none => vs.entries
    | some p => vs.entries.filter (fun d => d.metadata.product_type == p)
  let scored := candidates.map (fun d => (d, vs.dist query d))
  (List.insertionSort (fun a b => a.2 ≤ b.2) scored).take k

/-- The translation of `product_filter` into Chroma's filter dict
(`vector_store.py`, lines 77-79): Python `if product_filter and
product_filter != "all"` — `None` and the empty string are falsy, and the
sentinel `"all"` also disables filtering. -/
def filter_dict (product_filter : Option String) : Option String :=
  match product_filter with
  | none => none
  | some p => if p ≠ "" ∧ p ≠ "all" then some p else none

/-- `VectorStoreManager.search_documents` (lines 68-98): translate the
filter, run the index search, keep only the results whose score is at most
`score_threshold` (in result order), and drop the scores. -/
def search_documents (vs : VectorStore) (query : String) (k : Nat)
    (product_filter : Option String) (score_threshold : ℚ) : List Document :=
  if vs.initialized = false then []
  else
    let results := similarity_search_with_score vs query k (filter_dict product_filter)
    (results.filter (fun ds => ds.2 ≤ score_threshold)).map Prod.fst

/-! ## RAGAgent (`src/utils/rag_agent.py`) and the front-end ask flow -/

/-- One entry of the `sources` list built on the success path of
`generate_answer` (lines 115-122). -/
structure SourceRef where
  source : String
  product_type : String
  chunk_index : Nat
deriving DecidableEq, Repr

/-- The dict returned by `generate_answer`.  The keys `answer`, `sources`
and `product_filter` are present in every return; `num_sources` only on the
success path, which `Option` models. -/
structure AnswerDict where
  answer : String
  sources : List SourceRef
  product_filter : Option String
  num_sources : Option Nat
deriving DecidableEq, Repr

/-- `RAGAgent`: the vector store and the language model.  `llm = none`
models `ChatOpenAI` construction having raised (`self.llm = None`); a
`predict` returning `.error` models the completion call raising. -/
structure RAGAgent where
  vector_store : VectorStore
  llm : Option (String → Except String String)

/-- `RAGAgent.retrieve_relevant_documents` (lines 52-60): delegate to
`search_documents` with its default `score_threshold` of 0.5. -/
def retrieve_relevant_documents (agent : RAGAgent) (query : String)
    (product_filter : Option String) (k : Nat) : List Document :=
  search_documents agent.vector_store query k product_filter half

/-- `RAGAgent.format_context` (lines 62-79). -/
def format_context (documents : List Document) : String :=
  if documents = [] then "No relevant documents found."
  else
    String.intercalate "\n" ((List.enumFrom 1 documents).map (fun p =>
      "\nDocument " ++ toString p.1 ++ ":\nSource: " ++ p.2.metadata.source
        ++ " (Product: " ++ p.2.metadata.product_type ++ ")\nContent: "
        ++ p.2.page_content ++ "\n---"))

/-- The prompt template of `RAGAgent._create_prompt_template` (lines 29-50),
already applied to its two input variables `context` and `question`. -/
def prompt_template_format (context question : String) : String :=
  "You are a helpful assistant that provides step-by-step procedures based on product manuals and Standard Operating Procedures (SOPs).\n\nContext from relevant documents:\n"
    ++ context
    ++ "\n\nHuman Question: " ++ question
    ++ "\n\nInstructions:\n1. Analyze the provided context carefully\n2. If the question is about a specific procedure, provide clear step-by-step instructions\n3. Reference the specific document/manual when possible\n4. If the context doesn\x27t contain enough information, say so clearly\n5. Focus on actionable steps and procedures\n6. Include any safety warnings or important notes from the source material\n\nAnswer:"

/-- `RAGAgent.generate_answer` (lines 81-136). -/
def generate_answer (agent : RAGAgent) (query : String)
    (product_filter : Option String) (k : Nat) : AnswerDict :=
  match agent.llm with
  | none =>
    { answer := "Error: Language model not available. Please check your OpenAI API key.",
      sources := [], product_filter := product_filter, num_sources := none }
  | some predict =>
    let relevant_docs := retrieve_relevant_documents agent query product_filter k
    if relevant_docs = [] then
      { answer := "I couldn\x27t find relevant information in the uploaded documents for your query about: \x27"
          ++ query
          ++ "\x27. Please make sure you have uploaded the appropriate manuals or SOPs, or try rephrasing your question.",
        sources := [], product_filter := product_filter, num_sources := none }
    else
      match predict (prompt_template_format (format_context relevant_docs) query) with
      | .error e =>
        { answer := "Error generating response: " ++ e,
          sources := [], product_filter := product_filter, num_sources := none }
      | .ok response =>
        { answer := pyStrip response,
          sources := relevant_docs.map (fun d =>
            { source := d.metadata.source,
              product_type := d.metadata.product_type,
              chunk_index := d.metadata.chunk_index }),
          product_filter := product_filter,
          num_sources := some relevant_docs.length }

/-- The dict returned by `RAGAgent.validate_query` (lines 148-164). -/
structure ValidationResult where
  valid : Bool
  message : String
deriving DecidableEq, Repr

/-- `RAGAgent.validate_query` (lines 148-164): Python
`if not query or len(query.strip()) < 3` then `if len(query) > 1000`. -/
def validate_query (query : String) : ValidationResult :=
  if query = "" ∨ (pyStrip query).length < 3 then
    { valid := false,
      message := "Please enter a more specific question (at least 3 characters)." }
  else if query.length > 1000 then
    { valid := false,
      message := "Question is too long. Please keep it under 1000 characters." }
  else
    { valid := true, message := "Query is valid." }

/-- Outcome of the front-end ask flow: either the validation message shown
without calling the agent, or the response dict of `generate_answer`. -/
inductive AskOutcome where
  | invalid (message : String)
  | answered (response : AnswerDict)
deriving DecidableEq, Repr

/-- `ask_question` of `streamlit_app.py` (lines 197-221): validate the
query first and stop on failure; otherwise call `generate_answer`, mapping
the front-end's `"all"` product filter to `None`. -/
def ask_question (agent : RAGAgent) (question : String)
    (product_filter : String) (k : Nat) : AskOutcome :=
  let validation := validate_query question
  if validation.valid then
    .answered (generate_answer agent question
      (if product_filter = "all" then none else some product_filter) k)
  else
    .invalid validation.message

/-! ## Helper instances and lemmas -/

instance exceptDecEq {ε α : Type} [DecidableEq ε] [DecidableEq α] : DecidableEq (Except ε α)
  | .ok a, .ok b =>
    if h : a = b then isTrue (by rw [h]) else isFalse (fun he => by cases he; exact h rfl)
  | .ok _, .error _ => isFalse (fun h => by cases h)
  | .error _, .ok _ => isFalse (fun h => by cases h)
  | .error a, .error b =>
    if h : a = b then isTrue (by rw [h]) else isFalse (fun he => by cases he; exact h rfl)

theorem stripChars_length_le (cs : List Char) : (stripChars cs).length ≤ cs.length := by
  unfold stripChars
  calc ((cs.dropWhile Char.isWhitespace).reverse.dropWhile Char.isWhitespace).reverse.length
      = ((cs.dropWhile Char.isWhitespace).reverse.dropWhile Char.isWhitespace).length := by
        rw [List.length_reverse]
    _ ≤ (cs.dropWhile Char.isWhitespace).reverse.length :=
        (List.dropWhile_sublist _).length_le
    _ = (cs.dropWhile Char.isWhitespace).length := by rw [List.length_reverse]
    _ ≤ cs.length := (List.dropWhile_sublist _).length_le

theorem pyStrip_length_le (s : String) : (pyStrip s).length ≤ s.length := by
  show (stripChars s.data).length ≤ s.data.length
  exact stripChars_length_le s.data

/-! ## Claim theorems -/

/-- The three per-category hit conditions actually computed by
`detect_product_type`: `everbridge` and `milestone` keywords are tested
against both fields, but the `inner_range` keywords split per field. -/
def everbridge_hit (text filename : String) : Bool :=
  pyIn "everbridge" (pyLower text) || pyIn "everbridge" (pyLower filename)

/-- See `everbridge_hit`. -/
def inner_range_hit (text filename : String) : Bool :=
  pyIn "inner range" (pyLower text) || pyIn "inner_range" (pyLower filename)
    || pyIn "innerrange" (pyLower filename)

/-- See `everbridge_hit`. -/
def milestone_hit (text filename : String) : Bool :=
  pyIn "milestone" (pyLower text) || pyIn "milestone" (pyLower filename)

/-- C4 (counterexample): the classifier does not match every category
keyword against both text and filename.  On the text `"inner_range"` (a
keyword of the `inner_range` category, which the code only tests against
the filename) with an empty filename, the code returns `"general"`,
while the spec-described classifier returns `"inner_range"`. -/
theorem classify_keywords_not_field_symmetric_cex :
    detect_product_type "inner_range" "" = "general"
      ∧ spec_classify "inner_range" "" = "inner_range" := by
  decide

/-- C4 (amended): the classifier is total and deterministic with values in
the closed set `{everbridge, inner_range, milestone, general}`; the first
category in priority order (everbridge, inner_range, milestone) whose hit
condition fires wins, and no hit yields `general` — where the everbridge and
milestone keywords are tested case-insensitively against both text and
filename, while `"inner range"` is tested against the text only and
`"inner_range"`/`"innerrange"` against the filename only. -/
theorem detect_product_type_closed_total_priority (text filename : String) :
    (detect_product_type text filename = "everbridge"
      ∨ detect_product_type text filename = "inner_range"
      ∨ detect_product_type text filename = "milestone"
      ∨ detect_product_type text filename = "general")
    ∧ (detect_product_type text filename = "everbridge"
        ↔ everbridge_hit text filename = true)
    ∧ (detect_product_type text filename = "inner_range"
        ↔ (everbridge_hit text filename = false ∧ inner_range_hit text filename = true))
    ∧ (detect_product_type text filename = "milestone"
        ↔ (everbridge_hit text filename = false ∧ inner_range_hit text filename = false
            ∧ milestone_hit text filename = true))
    ∧ (detect_product_type text filename = "general"
        ↔ (everbridge_hit text filename = false ∧ inner_range_hit text filename = false
            ∧ milestone_hit text filename = false)) := by
  unfold detect_product_type everbridge_hit inner_range_hit milestone_hit
  cases he : pyIn "everbridge" (pyLower text) || pyIn "everbridge" (pyLower filename) <;>
    cases hi : pyIn "inner range" (pyLower text) || pyIn "inner_range" (pyLower filename)
        || pyIn "innerrange" (pyLower filename) <;>
      cases hm : pyIn "milestone" (pyLower text) || pyIn "milestone" (pyLower filename) <;>
        simp_all

/-- C7: batch ingestion returns exactly the concatenation, in input order,
of the chunk records of the documents that process successfully; a document
whose processing fails contributes nothing and does not abort the batch. -/
theorem process_multiple_documents_concat_successes (chunk_size chunk_overlap : Nat)
    (env : ExtractEnv) (file_paths : List String)
    (product_types : List (String × String)) :
    process_multiple_documents chunk_size chunk_overlap env file_paths product_types
      = (file_paths.map (fun fp =>
          match process_document chunk_size chunk_overlap env fp
              (product_types.lookup fp) with
          | .ok documents => documents
          | .error _ => [])).flatten := by
  unfold process_multiple_documents
  suffices h : ∀ (fps : List String) (acc : List Document),
      fps.foldl (fun all_documents file_path =>
        match process_document chunk_size chunk_overlap env file_path
            (product_types.lookup file_path) with
        | .ok documents => all_documents ++ documents
        | .error _ => all_documents) acc
      = acc ++ (fps.map (fun fp =>
          match process_document chunk_size chunk_overlap env fp
              (product_types.lookup fp) with
          | .ok documents => documents
          | .error _ => [])).flatten by
    simpa using h file_paths []
  intro fps
  induction fps with
  | nil => intro acc; simp
  | cons fp rest ih =>
    intro acc
    simp only [List.foldl_cons, List.map_cons, List.flatten_cons]
    cases hpd : process_document chunk_size chunk_overlap env fp
        (product_types.lookup fp) with
    | ok ds => simp only [hpd, ih, List.append_assoc]
    | error e => simp only [hpd, ih, List.nil_append, List.append_nil]

/-- C10: every return of `generate_answer` carries the `answer`, `sources`
and `product_filter` keys with `product_filter` echoing the argument; on
every path without `num_sources` (model unavailable, no documents retrieved,
model call raising) the sources list is empty, and when `num_sources` is
present it equals the length of `sources`. -/
theorem generate_answer_result_shape (agent : RAGAgent) (query : String)
    (product_filter : Option String) (k : Nat) :
    (generate_answer agent query product_filter k).product_filter = product_filter
    ∧ ((generate_answer agent query product_filter k).num_sources = none →
        (generate_answer agent query product_filter k).sources = [])
    ∧ (∀ n, (generate_answer agent query product_filter k).num_sources = some n →
        n = (generate_answer agent query product_filter k).sources.length) := by
  unfold generate_answer
  cases agent.llm with
  | none => simp
  | some predict =>
    by_cases hd : retrieve_relevant_documents agent query product_filter k = []
    · simp [hd]
    · cases hp : predict (prompt_template_format
          (format_context (retrieve_relevant_documents agent query product_filter k))
          query) with
      | error e => simp [hd, hp]
      | ok response => simp [hd, hp]

/-- C10 witness: with an unavailable language model the `num_sources` key is
absent and the sources list is concretely empty. -/
theorem generate_answer_result_shape_witness :
    (generate_answer ⟨⟨false, [], fun _ _ => 0⟩, none⟩ "q" none 5).sources = [] :=
  (generate_answer_result_shape ⟨⟨false, [], fun _ _ => 0⟩, none⟩ "q" none 5).2.1
    (by decide)

/-- C3: a query shorter than 3 characters or longer than 1000 characters is
rejected by validation: the ask flow returns the structured validation
message, for every agent (so neither retrieval nor the language model can
influence the outcome), and `validate_query` marks the query invalid. -/
theorem ask_question_rejects_invalid_query (agent : RAGAgent) (question : String)
    (product_filter : String) (k : Nat)
    (h : question.length < 3 ∨ question.length > 1000) :
    ask_question agent question product_filter k
      = AskOutcome.invalid (validate_query question).message
    ∧ (validate_query question).valid = false := by
  have hvalid : (validate_query question).valid = false := by
    rcases h with hshort | hlong
    · have hs : (pyStrip question).length < 3 :=
        lt_of_le_of_lt (pyStrip_length_le question) hshort
      unfold validate_query
      rw [if_pos (Or.inr hs)]
    · unfold validate_query
      by_cases hc : question = "" ∨ (pyStrip question).length < 3
      · rw [if_pos hc]
      · rw [if_neg hc, if_pos hlong]
  refine ⟨?_, hvalid⟩
  unfold ask_question
  simp [hvalid]

/-- C3 witness: the 2-character query `"ab"` is rejected with the
validation message, for a concrete agent. -/
theorem ask_question_rejects_invalid_query_witness :
    ask_question ⟨⟨false, [], fun _ _ => 0⟩, none⟩ "ab" "all" 5
      = AskOutcome.invalid (validate_query "ab").message
    ∧ (validate_query "ab").valid = false :=
  ask_question_rejects_invalid_query ⟨⟨false, [], fun _ _ => 0⟩, none⟩ "ab" "all" 5
    (Or.inl (by decide))

theorem similarity_search_score_eq (vs : VectorStore) (query : String) (k : Nat)
    (fd : Option String) :
    ∀ pr ∈ similarity_search_with_score vs query k fd, pr.2 = vs.dist query pr.1 := by
  intro pr hpr
  unfold similarity_search_with_score at hpr
  have h2 := List.mem_of_mem_take hpr
  rw [List.mem_insertionSort] at h2
  obtain ⟨d, _, rfl⟩ := List.mem_map.1 h2
  rfl

theorem similarity_search_sorted (vs : VectorStore) (query : String) (k : Nat)
    (fd : Option String) :
    (similarity_search_with_score vs query k fd).Pairwise (fun a b => a.2 ≤ b.2) := by
  unfold similarity_search_with_score
  exact List.Pairwise.sublist (List.take_sublist _ _) (List.sorted_insertionSort _ _)

theorem mem_similarity_search_filtered (vs : VectorStore) (query : String) (k : Nat)
    (p : String) :
    ∀ pr ∈ similarity_search_with_score vs query k (some p),
      pr.1.metadata.product_type = p := by
  intro pr hpr
  unfold similarity_search_with_score at hpr
  have h2 := List.mem_of_mem_take hpr
  rw [List.mem_insertionSort] at h2
  obtain ⟨d, hd, rfl⟩ := List.mem_map.1 h2
  exact eq_of_beq (List.mem_filter.1 hd).2

/-- C1: for every query, `k`, product filter and threshold, `search_documents`
never returns a chunk whose similarity distance exceeds the threshold; the
surviving results are in ascending-distance order; and they are a sublist of
(hence in the order of) the results returned by the index search. -/
theorem search_documents_score_threshold (vs : VectorStore) (query : String)
    (k : Nat) (product_filter : Option String) (score_threshold : ℚ) :
    (∀ d ∈ search_documents vs query k product_filter score_threshold,
        vs.dist query d ≤ score_threshold)
    ∧ ((search_documents vs query k product_filter score_threshold).map
        (vs.dist query)).Pairwise (· ≤ ·)
    ∧ (search_documents vs query k product_filter score_threshold).Sublist
        ((similarity_search_with_score vs query k (filter_dict product_filter)).map
          Prod.fst) := by
  by_cases hinit : vs.initialized = false
  · unfold search_documents
    rw [if_pos hinit]
    exact ⟨fun d hd => absurd hd (List.not_mem_nil d), List.Pairwise.nil,
      List.nil_sublist _⟩
  · have heq : search_documents vs query k product_filter score_threshold
        = ((similarity_search_with_score vs query k
            (filter_dict product_filter)).filter
          (fun ds => ds.2 ≤ score_threshold)).map Prod.fst := by
      unfold search_documents
      rw [if_neg hinit]
    rw [heq]
    refine ⟨?_, ?_, ?_⟩
    · intro d hd
      obtain ⟨pr, hpr, rfl⟩ := List.mem_map.1 hd
      have h1 : pr ∈ similarity_search_with_score vs query k
          (filter_dict product_filter) := List.mem_of_mem_filter hpr
      have h2 : pr.2 ≤ score_threshold :=
        of_decide_eq_true (List.mem_filter.1 hpr).2
      rw [← similarity_search_score_eq vs query k (filter_dict product_filter) pr h1]
      exact h2
    · have hfiltered : ((similarity_search_with_score vs query k
          (filter_dict product_filter)).filter
            (fun ds => ds.2 ≤ score_threshold)).Pairwise (fun a b => a.2 ≤ b.2) :=
        List.Pairwise.sublist (List.filter_sublist _)
          (similarity_search_sorted vs query k (filter_dict product_filter))
      have hdist : ((similarity_search_with_score vs query k
          (filter_dict product_filter)).filter
            (fun ds => ds.2 ≤ score_threshold)).Pairwise
          (fun a b => vs.dist query a.1 ≤ vs.dist query b.1) := by
        refine hfiltered.imp_of_mem ?_
        intro a b ha hb hab
        have ha2 := similarity_search_score_eq vs query k (filter_dict product_filter)
          a (List.mem_of_mem_filter ha)
        have hb2 := similarity_search_score_eq vs query k (filter_dict product_filter)
          b (List.mem_of_mem_filter hb)
        rw [← ha2, ← hb2]
        exact hab
      simpa [List.pairwise_map] using hdist
    · exact (List.filter_sublist _).map Prod.fst

/-- Demo records and store used to witness the retrieval theorems. -/
def doc_everbridge : Document :=
  ⟨"chunk one", ⟨"a.pdf", "a.pdf", "everbridge", 0, 1⟩⟩

/-- See `doc_everbridge`. -/
def doc_milestone : Document :=
  ⟨"chunk two", ⟨"b.pdf", "b.pdf", "milestone", 0, 1⟩⟩

/-- See `doc_everbridge`. -/
def demo_store : VectorStore :=
  ⟨true, [doc_everbridge, doc_milestone], fun _ _ => 0⟩

/-- C1 witness: on a concrete two-record store, the record returned by an
unfiltered search is concretely within the threshold. -/
theorem search_documents_score_threshold_witness :
    demo_store.dist "how" doc_everbridge ≤ 1 :=
  (search_documents_score_threshold demo_store "how" 5 none 1).1 doc_everbridge
    (by decide)

/-- C2: a category filter that is neither absent, empty, nor the sentinel
`"all"` restricts every returned chunk to exactly that product category,
while the sentinel `"all"` and the empty string behave like no filter. -/
theorem search_documents_product_filter (vs : VectorStore) (query : String)
    (k : Nat) (x : String) (score_threshold : ℚ)
    (hne : x ≠ "") (hna : x ≠ "all") :
    (∀ d ∈ search_documents vs query k (some x) score_threshold,
        d.metadata.product_type = x)
    ∧ search_documents vs query k (some "all") score_threshold
        = search_documents vs query k none score_threshold
    ∧ search_documents vs query k (some "") score_threshold
        = search_documents vs query k none score_threshold := by
  refine ⟨?_, ?_, ?_⟩
  · intro d hd
    by_cases hinit : vs.initialized = false
    · unfold search_documents at hd
      rw [if_pos hinit] at hd
      exact absurd hd (List.not_mem_nil d)
    · have hfd : filter_dict (some x) = some x := by
        show (if x ≠ "" ∧ x ≠ "all" then some x else none) = some x
        rw [if_pos ⟨hne, hna⟩]
      unfold search_documents at hd
      rw [if_neg hinit, hfd] at hd
      obtain ⟨pr, hpr, rfl⟩ := List.mem_map.1 hd
      exact mem_similarity_search_filtered vs query k x pr
        (List.mem_of_mem_filter hpr)
  · have hfd : filter_dict (some "all") = filter_dict none := by decide
    unfold search_documents
    rw [hfd]
  · have hfd : filter_dict (some "") = filter_dict none := by decide
    unfold search_documents
    rw [hfd]

/-- C2 witness: on the concrete two-record store, the record returned under
the `"everbridge"` filter concretely carries that product category. -/
theorem search_documents_product_filter_witness :
    doc_everbridge.metadata.product_type = "everbridge" :=
  (search_documents_product_filter demo_store "how" 5 "everbridge" 1
    (by decide) (by decide)).1 doc_everbridge (by decide)

/-- C8: if the language-model collaborator is unavailable at construction,
`generate_answer` returns the structured unavailability response with empty
sources; if it raises during the completion call (made only when retrieval
returned documents), `generate_answer` returns the structured error response
with empty sources.  Both are plain returns: no exception propagates. -/
theorem generate_answer_llm_failure_structured (agent : RAGAgent) (query : String)
    (product_filter : Option String) (k : Nat) :
    (agent.llm = none →
      generate_answer agent query product_filter k
        = { answer := "Error: Language model not available. Please check your OpenAI API key.",
            sources := [], product_filter := product_filter, num_sources := none })
    ∧ (∀ predict e, agent.llm = some predict →
        retrieve_relevant_documents agent query product_filter k ≠ [] →
        predict (prompt_template_format
          (format_context (retrieve_relevant_documents agent query product_filter k))
          query) = .error e →
        generate_answer agent query product_filter k
          = { answer := "Error generating response: " ++ e,
              sources := [], product_filter := product_filter, num_sources := none }) := by
  constructor
  · intro hllm
    unfold generate_answer
    rw [hllm]
  · intro predict e hllm hne hp
    unfold generate_answer
    rw [hllm]
    simp only []
    rw [if_neg hne, hp]

/-- Concrete agent whose language model failed to construct. -/
def demo_agent_down : RAGAgent := ⟨demo_store, none⟩

/-- Concrete agent whose language model raises on every completion call. -/
def demo_agent_raising : RAGAgent := ⟨demo_store, some (fun _ => .error "boom")⟩

/-- C8 witness: concrete responses for an unavailable and for a raising
language model. -/
theorem generate_answer_llm_failure_structured_witness :
    generate_answer demo_agent_down "q" none 5
      = { answer := "Error: Language model not available. Please check your OpenAI API key.",
          sources := [], product_filter := none, num_sources := none }
    ∧ generate_answer demo_agent_raising "q" none 5
      = { answer := "Error generating response: " ++ "boom",
          sources := [], product_filter := none, num_sources := none } :=
  ⟨(generate_answer_llm_failure_structured demo_agent_down "q" none 5).1 rfl,
   (generate_answer_llm_failure_structured demo_agent_raising "q" none 5).2
     (fun _ => .error "boom") "boom" rfl (by decide) rfl⟩

/-- C5: single-document ingestion fails with the not-found error when the
path does not resolve, with the unsupported-format error when the path is
not a PDF, with an extraction error when both extractors fail, and with an
extraction error when the extracted text strips to empty; each failure is an
`Except.error`, so no chunk records are produced. -/
theorem process_document_error_paths (chunk_size chunk_overlap : Nat)
    (env : ExtractEnv) (file_path : String) (product_type : Option String) :
    (env.path_exists file_path = false →
      process_document chunk_size chunk_overlap env file_path product_type
        = .error (.notFound ("File not found: " ++ file_path)))
    ∧ (env.path_exists file_path = true →
        pyEndsWith (pyLower file_path) ".pdf" = false →
        process_document chunk_size chunk_overlap env file_path product_type
          = .error (.unsupportedFormat "Currently only PDF files are supported"))
    ∧ ((env.pdfplumber_open file_path).ok = false →
        (env.pymupdf_open file_path).ok = false →
        env.path_exists file_path = true →
        pyEndsWith (pyLower file_path) ".pdf" = true →
        process_document chunk_size chunk_overlap env file_path product_type
          = .error (.extraction ("Could not extract text from PDF: "
              ++ (env.pymupdf_open file_path).err_msg)))
    ∧ (∀ text, env.path_exists file_path = true →
        pyEndsWith (pyLower file_path) ".pdf" = true →
        extract_text_from_pdf env file_path = .ok text →
        pyStrip text = "" →
        process_document chunk_size chunk_overlap env file_path product_type
          = .error (.extraction "No text could be extracted from the PDF")) := by
  refine ⟨?_, ?_, ?_, ?_⟩
  · intro h1
    unfold process_document
    rw [if_pos h1]
  · intro h1 h2
    unfold process_document
    rw [if_neg (by simp [h1]), if_pos h2]
  · intro hpo hmo h1 h2
    have hex : extract_text_from_pdf env file_path
        = .error ("Could not extract text from PDF: "
            ++ (env.pymupdf_open file_path).err_msg) := by
      unfold extract_text_from_pdf
      rw [if_neg (by simp [hpo]), if_neg (by simp [hmo])]
    unfold process_document
    rw [if_neg (by simp [h1]), if_neg (by simp [h2]), hex]
  · intro text h1 h2 hex hempty
    unfold process_document
    rw [if_neg (by simp [h1]), if_neg (by simp [h2]), hex]
    simp [hempty]

/-- Environment in which no path resolves. -/
def env_missing : ExtractEnv :=
  ⟨fun _ => false, fun _ => ⟨[], true, ""⟩, fun _ => ⟨[], true, ""⟩⟩

/-- Environment in which every path resolves and pdfplumber reads zero
pages (so extraction yields empty text). -/
def env_empty_pdf : ExtractEnv :=
  ⟨fun _ => true, fun _ => ⟨[], true, ""⟩, fun _ => ⟨[], true, ""⟩⟩

/-- Environment in which both extractors raise. -/
def env_both_fail : ExtractEnv :=
  ⟨fun _ => true, fun _ => ⟨[], false, "e1"⟩, fun _ => ⟨[], false, "e2"⟩⟩

/-- C5 witness: all four failure modes, at concrete environments and paths. -/
theorem process_document_error_paths_witness :
    process_document 1000 200 env_missing "a.pdf" none
      = .error (.notFound ("File not found: " ++ "a.pdf"))
    ∧ process_document 1000 200 env_empty_pdf "notes.txt" none
      = .error (.unsupportedFormat "Currently only PDF files are supported")
    ∧ process_document 1000 200 env_both_fail "a.pdf" none
      = .error (.extraction ("Could not extract text from PDF: "
          ++ (env_both_fail.pymupdf_open "a.pdf").err_msg))
    ∧ process_document 1000 200 env_empty_pdf "a.pdf" none
      = .error (.extraction "No text could be extracted from the PDF") :=
  ⟨(process_document_error_paths 1000 200 env_missing "a.pdf" none).1 rfl,
   (process_document_error_paths 1000 200 env_empty_pdf "notes.txt" none).2.1
     rfl (by decide),
   (process_document_error_paths 1000 200 env_both_fail "a.pdf" none).2.2.1
     rfl rfl rfl (by decide),
   (process_document_error_paths 1000 200 env_empty_pdf "a.pdf" none).2.2.2
     "" rfl (by decide) rfl rfl⟩

theorem process_document_ok_shape (chunk_size chunk_overlap : Nat)
    (env : ExtractEnv) (file_path : String) (product_type : Option String)
    (docs : List Document)
    (h : process_document chunk_size chunk_overlap env file_path product_type
      = .ok docs) :
    ∃ text pt, docs = (split_text chunk_size chunk_overlap text).enum.map (fun ic =>
      { page_content := ic.2,
        metadata :=
          { source := basename file_path,
            file_path := file_path,
            product_type := pt,
            chunk_index := ic.1,
            total_chunks := (split_text chunk_size chunk_overlap text).length } }) := by
  unfold process_document at h
  split at h
  · exact absurd h (by simp)
  · split at h
    · exact absurd h (by simp)
    · split at h
      · exact absurd h (by simp)
      · split at h
        · exact absurd h (by simp)
        · exact ⟨_, _, (Except.ok.inj h).symm⟩

/-- C6: every successful single-document ingestion yields chunk records
whose `chunk_index` runs 0, 1, 2, ... (exactly `List.range` over the length),
whose `total_chunks` all equal the number of records, and which all share
one source filename (the basename of the path) and one product category. -/
theorem process_document_chunk_invariants (chunk_size chunk_overlap : Nat)
    (env : ExtractEnv) (file_path : String) (product_type : Option String)
    (docs : List Document)
    (h : process_document chunk_size chunk_overlap env file_path product_type
      = .ok docs) :
    docs.map (fun d => d.metadata.chunk_index) = List.range docs.length
    ∧ (∀ d ∈ docs, d.metadata.total_chunks = docs.length)
    ∧ (∀ d ∈ docs, d.metadata.source = basename file_path)
    ∧ (∀ d ∈ docs, ∀ d2 ∈ docs,
        d.metadata.product_type = d2.metadata.product_type) := by
  obtain ⟨text, pt, rfl⟩ := process_document_ok_shape chunk_size chunk_overlap env
    file_path product_type docs h
  refine ⟨?_, ?_, ?_, ?_⟩
  · rw [List.map_map, List.length_map, List.enum_length]
    exact List.enum_map_fst _
  · intro d hd
    obtain ⟨ic, _, rfl⟩ := List.mem_map.1 hd
    rw [List.length_map, List.enum_length]
  · intro d hd
    obtain ⟨ic, _, rfl⟩ := List.mem_map.1 hd
    rfl
  · intro d hd d2 hd2
    obtain ⟨ic, _, rfl⟩ := List.mem_map.1 hd
    obtain ⟨ic2, _, rfl⟩ := List.mem_map.1 hd2
    rfl

/-- Environment whose PDF reader yields one page, `"hello world"`. -/
def env_hello : ExtractEnv :=
  ⟨fun _ => true, fun _ => ⟨[some "hello world"], true, ""⟩, fun _ => ⟨[], true, ""⟩⟩

/-- The single chunk record that ingesting `guide.pdf` in `env_hello`
produces. -/
def doc_hello : Document :=
  ⟨"hello world", ⟨"guide.pdf", "guide.pdf", "general", 0, 1⟩⟩

/-- C6 witness: a concrete successful ingestion whose chunk indices are
concretely `List.range` of the record count. -/
theorem process_document_chunk_invariants_witness :
    [doc_hello].map (fun d => d.metadata.chunk_index)
      = List.range [doc_hello].length :=
  (process_document_chunk_invariants 1000 200 env_hello "guide.pdf" none
    [doc_hello] (by decide)).1

theorem chunkAux_short (chunkSize step fuel : Nat) (cs : List Char)
    (h : cs.length ≤ chunkSize) : chunkAux chunkSize step fuel cs = [cs] := by
  cases fuel with
  | zero => rfl
  | succ n =>
    unfold chunkAux
    rw [if_pos h]

theorem chunkAux_map_drop_flatten (chunkSize step ov : Nat)
    (hov : ov + step = chunkSize) :
    ∀ (fuel : Nat) (cs : List Char),
      ((chunkAux chunkSize step fuel cs).map (List.drop ov)).flatten = cs.drop ov := by
  intro fuel
  induction fuel with
  | zero =>
    intro cs
    simp [chunkAux]
  | succ n ih =>
    intro cs
    unfold chunkAux
    by_cases hlen : cs.length ≤ chunkSize
    · rw [if_pos hlen]
      simp
    · rw [if_neg hlen]
      simp only [List.map_cons, List.flatten_cons, ih]
      rw [List.drop_drop, Nat.add_comm step ov, hov]
      conv_rhs => rw [← List.take_append_drop chunkSize cs]
      rw [List.drop_append_of_le_length]
      rw [List.length_take]
      exact le_min (hov ▸ Nat.le_add_right ov step)
        (le_of_lt (lt_of_le_of_lt (hov ▸ Nat.le_add_right ov step)
          (lt_of_not_le hlen)))

theorem chunkAux_reconstruct (chunkSize step ov : Nat)
    (hov : ov + step = chunkSize) (fuel : Nat) (cs : List Char) :
    reconstructChars ov (chunkAux chunkSize step fuel cs) = cs := by
  cases fuel with
  | zero => simp [chunkAux, reconstructChars]
  | succ n =>
    unfold chunkAux
    by_cases hlen : cs.length ≤ chunkSize
    · rw [if_pos hlen]
      simp [reconstructChars]
    · rw [if_neg hlen]
      show cs.take chunkSize
          ++ ((chunkAux chunkSize step n (cs.drop step)).map (List.drop ov)).flatten
        = cs
      rw [chunkAux_map_drop_flatten chunkSize step ov hov n (cs.drop step)]
      rw [List.drop_drop, Nat.add_comm step ov, hov]
      exact List.take_append_drop chunkSize cs

/-- C9: provided `chunk_overlap < chunk_size` (the spec precondition), the
chunker never drops text — re-joining the chunks while dropping each later
chunk's duplicated overlap reconstructs the input exactly — and any text
shorter than `chunk_size` comes back as the single chunk equal to the text. -/
theorem split_text_reconstructs (chunk_size chunk_overlap : Nat) (text : String)
    (h : chunk_overlap < chunk_size) :
    reconstruct chunk_overlap (split_text chunk_size chunk_overlap text) = text
    ∧ (text.length < chunk_size → split_text chunk_size chunk_overlap text = [text]) := by
  constructor
  · unfold split_text reconstruct
    rw [List.map_map]
    have hmap : (chunkAux chunk_size (chunk_size - chunk_overlap)
          text.data.length text.data).map (String.data ∘ fun cs => (⟨cs⟩ : String))
        = chunkAux chunk_size (chunk_size - chunk_overlap)
            text.data.length text.data := by
      rw [show (String.data ∘ fun cs => ({ data := cs } : String)) = id from
        funext (fun cs => rfl), List.map_id]
    rw [hmap, chunkAux_reconstruct chunk_size (chunk_size - chunk_overlap)
      chunk_overlap (Nat.add_sub_cancel' (le_of_lt h)) text.data.length text.data]
  · intro hshort
    unfold split_text
    rw [chunkAux_short chunk_size (chunk_size - chunk_overlap)
      text.data.length text.data (le_of_lt hshort)]
    rfl

/-- C9 witness: a concrete split at `chunk_size = 5`, `overlap = 2`
reconstructs `"hello world"`, and the short text `"ab"` comes back whole. -/
theorem split_text_reconstructs_witness :
    reconstruct 2 (split_text 5 2 "hello world") = "hello world"
    ∧ split_text 5 2 "ab" = ["ab"] :=
  ⟨(split_text_reconstructs 5 2 "hello world" (by decide)).1,
   (split_text_reconstructs 5 2 "ab" (by decide)).2 (by decide)⟩

end SopAgent
